import Mathlib

/-!
Verification of the webwaka-core-permissions service: a shallow embedding of
the tenant-scoped RBAC core (role store, assignment store, Casbin-style
evaluation index, and the orchestration service) together with theorems about
the behaviours the specification describes.

Conventions of the embedding:
* TypeScript `Map<string, V>` becomes an association list `List (String × V)`
  with `Map.set` (`mapSet`: in-place overwrite of an existing key, append
  otherwise, preserving insertion order), `Map.get` (`mapGet`) and
  `Map.delete` (`mapDelete`).
* `Date` values become `Nat` timestamps passed explicitly.
* `throw new Error(...)` becomes `Except String`; mutating operations return
  the state as it stood at the point of the throw (the source throws before
  any mutation in every such operation).
* `randomBytes(16).toString('hex')` (id generation) becomes an explicit
  `roleId` parameter.
-/

/-- JavaScript `Map.prototype.set`: overwrite in place if the key is present
(keeping its position, as JS `Map` does), otherwise append at the end. -/
def mapSet {α : Type} (k : String) (v : α) : List (String × α) → List (String × α)
  | [] => [(k, v)]
  | (k', v') :: rest => if k' = k then (k, v) :: rest else (k', v') :: mapSet k v rest

/-- JavaScript `Map.prototype.get` (`none` models `undefined`). -/
def mapGet {α : Type} (k : String) : List (String × α) → Option α
  | [] => none
  | (k', v') :: rest => if k' = k then some v' else mapGet k rest

/-- JavaScript `Map.prototype.delete`. -/
def mapDelete {α : Type} (k : String) : List (String × α) → List (String × α)
  | [] => []
  | (k', v') :: rest => if k' = k then rest else (k', v') :: mapDelete k rest

/-- JavaScript `String.prototype.startsWith`, over the character data. -/
def strStartsWith (s p : String) : Bool := p.data.isPrefixOf s.data

/-- Insertion step of a JavaScript `Set`: keep first-seen order, drop
duplicates. -/
def dedupAppend (l : List String) (x : String) : List String :=
  if x ∈ l then l else l ++ [x]

/-- `Array.from(new Set(xs))`: deduplicated list in first-seen order. -/
def jsSetList (xs : List String) : List String := xs.foldl dedupAppend []

/-- `Role` record (src/types.ts): dates are `Nat` timestamps, the opaque
`metadata` map is an association list of strings. -/
structure Role where
  roleId : String
  tenantId : String
  name : String
  description : Option String
  capabilities : List String
  metadata : Option (List (String × String))
  createdAt : Nat
  updatedAt : Nat
deriving Repr, DecidableEq

/-- `UserRoleAssignment` record (src/types.ts). -/
structure UserRoleAssignment where
  tenantId : String
  userId : String
  roleId : String
  assignedAt : Nat
  assignedBy : Option String
deriving Repr, DecidableEq

/-- `PermissionCheckResult` record (src/types.ts): `reason` is optional in the
interface. -/
structure PermissionCheckResult where
  allowed : Bool
  grantedBy : List String
  reason : Option String
deriving Repr, DecidableEq

/-- The mutable fields a `Partial<Role>` update may carry, as the service
passes them to the store (`roleId`/`tenantId`/`createdAt` are force-restored
by the store and never supplied by the service; the store overwrites
`updatedAt` with its own clock, see `InMemoryRoleStorage.updateRole`). -/
structure RoleUpdate where
  name : Option String
  description : Option String
  capabilities : Option (List String)
  metadata : Option (List (String × String))
  updatedAt : Option Nat
deriving Repr, DecidableEq

/-- Merge of one optional field under JS object spread `{...existing,
...updates}`: a field present in the update wins, an absent one keeps the
existing value. -/
def mergeOpt {α : Type} (upd old : Option α) : Option α :=
  match upd with
  | some v => some v
  | none => old

/-! ## Input validation (src/validation.ts, zod schemas) -/

/-- `TenantIdSchema` / `UserIdSchema` / `RoleIdSchema` / `RoleNameSchema`:
`z.string().min(1).max(255)`. -/
def idOk (s : String) : Bool := 1 ≤ s.length && s.length ≤ 255

/-- One character of the capability regex classes `[a-z0-9-]`. -/
def capChar (c : Char) : Bool :=
  (decide ('a' ≤ c) && decide (c ≤ 'z')) || (decide ('0' ≤ c) && decide (c ≤ '9')) || c == '-'

/-- Split a character list at its first `':'`; `none` when no `':'` occurs.
Models locating the separator of the `module:action` capability format. -/
def capSplit : List Char → Option (List Char × List Char)
  | [] => none
  | c :: rest =>
    if c = ':' then some ([], rest)
    else
      match capSplit rest with
      | none => none
      | some (a, b) => some (c :: a, b)

/-- `CapabilityIdSchema`: the zod regex
`^[a-z0-9-]+:[a-z0-9-]+$` — a nonempty `[a-z0-9-]` run, one `':'` and a second
nonempty `[a-z0-9-]` run (a second `':'` is impossible since `':'` is not in
the class). -/
def capOk (s : String) : Bool :=
  match capSplit s.data with
  | none => false
  | some (a, b) => !a.isEmpty && !b.isEmpty && a.all capChar && b.all capChar

/-- Optional-field validation: absent is fine, present must pass `f`. -/
def optOk {α : Type} (f : α → Bool) : Option α → Bool
  | none => true
  | some v => f v

/-- `z.string().max(1000)` for descriptions. -/
def descOk (s : String) : Bool := s.length ≤ 1000

/-! ## InMemoryRoleStorage (src/storage.ts) -/

/-- `InMemoryRoleStorage.getKey`: the composite key `` `${tenantId}:${roleId}` ``. -/
def roleKey (tenantId roleId : String) : String := tenantId ++ ":" ++ roleId

/-- `InMemoryRoleStorage`: `private roles: Map<string, Role>`. -/
structure InMemoryRoleStorage where
  roles : List (String × Role)
deriving Repr, DecidableEq

/-- `InMemoryRoleStorage.createRole`: throws when the composite key is
present, otherwise stores the role unchanged. -/
def InMemoryRoleStorage.createRole (st : InMemoryRoleStorage) (role : Role) :
    Except String (Role × InMemoryRoleStorage) :=
  match mapGet (roleKey role.tenantId role.roleId) st.roles with
  | some _ => .error ("Role already exists: " ++ role.roleId)
  | none => .ok (role, ⟨mapSet (roleKey role.tenantId role.roleId) role st.roles⟩)

/-- `InMemoryRoleStorage.getRole`: `roles.get(key) || null`. -/
def InMemoryRoleStorage.getRole (st : InMemoryRoleStorage) (tenantId roleId : String) :
    Option Role :=
  mapGet (roleKey tenantId roleId) st.roles

/-- `InMemoryRoleStorage.updateRole`: spread the update over the existing
role, force-restore the immutable `roleId`/`tenantId`/`createdAt`, refresh
`updatedAt` with the store's clock (`now`), store and return the merged
role. -/
def InMemoryRoleStorage.updateRole (st : InMemoryRoleStorage) (tenantId roleId : String)
    (updates : RoleUpdate) (now : Nat) : Except String (Role × InMemoryRoleStorage) :=
  match mapGet (roleKey tenantId roleId) st.roles with
  | none => .error ("Role not found: " ++ roleId)
  | some existing =>
    let updated : Role :=
      { roleId := existing.roleId
        tenantId := existing.tenantId
        name := (mergeOpt updates.name (some existing.name)).getD existing.name
        description := mergeOpt updates.description existing.description
        capabilities :=
          (mergeOpt updates.capabilities (some existing.capabilities)).getD existing.capabilities
        metadata := mergeOpt updates.metadata existing.metadata
        createdAt := existing.createdAt
        updatedAt := now }
    .ok (updated, ⟨mapSet (roleKey tenantId roleId) updated st.roles⟩)

/-- `InMemoryRoleStorage.deleteRole`: `roles.delete(key)`, idempotent. -/
def InMemoryRoleStorage.deleteRole (st : InMemoryRoleStorage) (tenantId roleId : String) :
    InMemoryRoleStorage :=
  ⟨mapDelete (roleKey tenantId roleId) st.roles⟩

/-- `InMemoryRoleStorage.listRoles`: all stored roles (insertion order) whose
`tenantId` field matches. -/
def InMemoryRoleStorage.listRoles (st : InMemoryRoleStorage) (tenantId : String) : List Role :=
  (st.roles.map (fun kv => kv.2)).filter (fun role => role.tenantId == tenantId)

/-! ## InMemoryUserRoleStorage (src/storage.ts) -/

/-- `InMemoryUserRoleStorage.getKey`: `` `${tenantId}:${userId}:${roleId}` ``. -/
def assignKey (tenantId userId roleId : String) : String :=
  tenantId ++ ":" ++ userId ++ ":" ++ roleId

/-- `InMemoryUserRoleStorage.getUserKey`: `` `${tenantId}:${userId}:` ``. -/
def userKey (tenantId userId : String) : String := tenantId ++ ":" ++ userId ++ ":"

/-- `InMemoryUserRoleStorage.getRoleKey`: `` `${tenantId}:` `` (the roleId
argument is unused in the source). -/
def roleUsersKey (tenantId : String) : String := tenantId ++ ":"

/-- `InMemoryUserRoleStorage`: `private assignments: Map<string, UserRoleAssignment>`. -/
structure InMemoryUserRoleStorage where
  assignments : List (String × UserRoleAssignment)
deriving Repr, DecidableEq

/-- `InMemoryUserRoleStorage.assignRole`: unconditional `Map.set` (idempotent
upsert on the composite key). -/
def InMemoryUserRoleStorage.assignRole (st : InMemoryUserRoleStorage)
    (a : UserRoleAssignment) : UserRoleAssignment × InMemoryUserRoleStorage :=
  (a, ⟨mapSet (assignKey a.tenantId a.userId a.roleId) a st.assignments⟩)

/-- `InMemoryUserRoleStorage.removeRole`: `Map.delete`, idempotent. -/
def InMemoryUserRoleStorage.removeRole (st : InMemoryUserRoleStorage)
    (tenantId userId roleId : String) : InMemoryUserRoleStorage :=
  ⟨mapDelete (assignKey tenantId userId roleId) st.assignments⟩

/-- `InMemoryUserRoleStorage.getUserRoles`: entries whose key starts with the
user key, mapped to their `roleId`. -/
def InMemoryUserRoleStorage.getUserRoles (st : InMemoryUserRoleStorage)
    (tenantId userId : String) : List String :=
  ((st.assignments.filter (fun kv => strStartsWith kv.1 (userKey tenantId userId))).map
    (fun kv => kv.2.roleId))

/-- `InMemoryUserRoleStorage.getRoleUsers`: entries whose key starts with
`` `${tenantId}:` `` and whose assignment's `roleId` matches, mapped to
`userId`. -/
def InMemoryUserRoleStorage.getRoleUsers (st : InMemoryUserRoleStorage)
    (tenantId roleId : String) : List String :=
  ((st.assignments.filter
      (fun kv => strStartsWith kv.1 (roleUsersKey tenantId) && kv.2.roleId == roleId)).map
    (fun kv => kv.2.userId))

/-! ## Casbin evaluation index (src/casbin-adapter.ts)

The adapter delegates policy bookkeeping and matching to the external
`casbin` package, configured with the `RBAC_MODEL` string of the source.
Modelled from the spec: the casbin enforcer state is the pair of tuple sets
it stores — `p = (role, domain, capability)` policies and
`g = (user, role, domain)` grouping links — and the matcher
`m = g(r.sub, p.sub, r.dom) && r.dom == p.dom && r.act == p.act` reads
`g(u, role, dom)` as direct domain-scoped membership, exactly the
`role ∈ memberships[tenant][user]` relation of the specification. `addPolicy`
and `addGroupingPolicy` never duplicate an existing tuple; the remove
operations delete the tuple; `getFilteredPolicy(i, vs...)` keeps tuples whose
fields from position `i` match `vs`. -/

/-- One casbin tuple: a `p` policy `(sub, dom, act)` or a `g` link
`(user, role, domain)`. -/
def Triple : Type := String × String × String
deriving instance Repr, DecidableEq for Triple

/-- casbin `addPolicy` / `addGroupingPolicy`: append unless already stored. -/
def addTriple (t : Triple) (l : List Triple) : List Triple :=
  if t ∈ l then l else l ++ [t]

/-- casbin `removePolicy` / `removeGroupingPolicy`: delete the tuple. -/
def removeTriple (t : Triple) (l : List Triple) : List Triple :=
  l.filter (fun q => q ≠ t)

/-- The casbin enforcer state for the `RBAC_MODEL`: `p` policies
`(role, domain, capability)` and `g` groupings `(user, role, domain)`. -/
structure EnfState where
  policies : List Triple
  groupings : List Triple
deriving Repr, DecidableEq

/-- The fresh enforcer produced by `newEnforcer(model)`: no tuples. -/
def EnfState.empty : EnfState := ⟨[], []⟩

/-- The `RBAC_MODEL` matcher evaluated by `enforce(sub, dom, act)`:
`some(where p.eft == allow)` over policies `p` with
`g(r.sub, p.sub, r.dom) && r.dom == p.dom && r.act == p.act`. -/
def EnfState.enforce (s : EnfState) (sub dom act : String) : Bool :=
  s.policies.any (fun p =>
    decide ((sub, p.1, dom) ∈ s.groupings) && dom == p.2.1 && act == p.2.2)

/-- `CasbinEnforcer.addRolePolicy`: `addPolicy(roleId, tenantId, capability)`. -/
def EnfState.addRolePolicy (s : EnfState) (tenantId roleId capability : String) : EnfState :=
  { s with policies := addTriple (roleId, tenantId, capability) s.policies }

/-- `CasbinEnforcer.removeRolePolicy`: `removePolicy(roleId, tenantId, capability)`. -/
def EnfState.removeRolePolicy (s : EnfState) (tenantId roleId capability : String) : EnfState :=
  { s with policies := removeTriple (roleId, tenantId, capability) s.policies }

/-- `CasbinEnforcer.clearRolePolicies`: fetch `getFilteredPolicy(0, roleId,
tenantId)` and remove each returned policy. -/
def EnfState.clearRolePolicies (s : EnfState) (tenantId roleId : String) : EnfState :=
  { s with policies :=
      ((s.policies.filter (fun p => p.1 == roleId && p.2.1 == tenantId)).foldl
        (fun acc p => removeTriple p acc) s.policies) }

/-- `CasbinEnforcer.addUserRole`: `addGroupingPolicy(userId, roleId, tenantId)`. -/
def EnfState.addUserRole (s : EnfState) (tenantId userId roleId : String) : EnfState :=
  { s with groupings := addTriple (userId, roleId, tenantId) s.groupings }

/-- `CasbinEnforcer.removeUserRole`: `removeGroupingPolicy(userId, roleId, tenantId)`. -/
def EnfState.removeUserRole (s : EnfState) (tenantId userId roleId : String) : EnfState :=
  { s with groupings := removeTriple (userId, roleId, tenantId) s.groupings }

/-- `CasbinEnforcer.getUserRoles` body: `getFilteredGroupingPolicy(0, userId)`
filtered to the tenant domain, mapped to the role position. -/
def EnfState.getUserRoles (s : EnfState) (tenantId userId : String) : List String :=
  (((s.groupings.filter (fun g => g.1 == userId)).filter
      (fun g => g.2.2 == tenantId)).map (fun g => g.2.1))

/-- `CasbinEnforcer.getGrantingRoles` body: the user's tenant roles that have
at least one `(roleId, tenantId, capability)` policy. -/
def EnfState.getGrantingRoles (s : EnfState) (tenantId userId capability : String) :
    List String :=
  (s.getUserRoles tenantId userId).filter (fun roleId =>
    !(s.policies.filter
        (fun p => p.1 == roleId && p.2.1 == tenantId && p.2.2 == capability)).isEmpty)

/-- `CasbinEnforcer.getUserCapabilities` body: for each of the user's tenant
roles collect `getFilteredPolicy(0, roleId, tenantId)` third components into a
JS `Set`, returned as `Array.from`. -/
def EnfState.getUserCapabilities (s : EnfState) (tenantId userId : String) : List String :=
  jsSetList ((s.getUserRoles tenantId userId).flatMap (fun roleId =>
    (s.policies.filter (fun p => p.1 == roleId && p.2.1 == tenantId)).map
      (fun p => p.2.2)))

/-- `CasbinEnforcer.syncPolicies` body over an initialized enforcer: drop the
tenant's policies (`getFilteredPolicy(1, tenantId)`) and groupings
(`getFilteredGroupingPolicy(2, tenantId)`), then rebuild from
`roleStorage.listRoles` and `userRoleStorage.getRoleUsers`. -/
def EnfState.syncPolicies (s : EnfState) (roleStorage : InMemoryRoleStorage)
    (userRoleStorage : InMemoryUserRoleStorage) (tenantId : String) : EnfState :=
  let cleared : EnfState :=
    { policies :=
        ((s.policies.filter (fun p => p.2.1 == tenantId)).foldl
          (fun acc p => removeTriple p acc) s.policies)
      groupings :=
        ((s.groupings.filter (fun g => g.2.2 == tenantId)).foldl
          (fun acc g => removeTriple g acc) s.groupings) }
  let roles := roleStorage.listRoles tenantId
  let withPolicies : EnfState :=
    { cleared with policies :=
        (roles.foldl (fun acc role =>
          role.capabilities.foldl (fun acc2 capability =>
            addTriple (role.roleId, tenantId, capability) acc2) acc) cleared.policies) }
  { withPolicies with groupings :=
      ((roles.map (fun r => r.roleId)).foldl (fun acc roleId =>
        (userRoleStorage.getRoleUsers tenantId roleId).foldl (fun acc2 userId =>
          addTriple (userId, roleId, tenantId) acc2) acc) withPolicies.groupings) }

/-! ## The lazily-initialized `CasbinEnforcer` wrapper -/

/-- `CasbinEnforcer`: `private enforcer: Enforcer | null = null`. -/
structure CasbinEnforcer where
  enforcer : Option EnfState
deriving Repr, DecidableEq

/-- The constructor state: `enforcer` is `null`. -/
def CasbinEnforcer.mk0 : CasbinEnforcer := ⟨none⟩

/-- `CasbinEnforcer.ensureInitialized`: create the enforcer when it is still
`null`, then dereference it with the non-null assertion `this.enforcer!` —
`none` in the result models that assertion failing. -/
def CasbinEnforcer.ensureInitialized (c : CasbinEnforcer) :
    Option (EnfState × CasbinEnforcer) :=
  let c' := if c.enforcer.isNone then ⟨some EnfState.empty⟩ else c
  match c'.enforcer with
  | none => none
  | some e => some (e, c')

/-- Wrapper `CasbinEnforcer.enforce`. -/
def CasbinEnforcer.enforce (c : CasbinEnforcer) (tenantId userId capability : String) :
    Option (Bool × CasbinEnforcer) :=
  match c.ensureInitialized with
  | none => none
  | some (e, c') => some (e.enforce userId tenantId capability, c')

/-- Wrapper `CasbinEnforcer.addRolePolicy`. -/
def CasbinEnforcer.addRolePolicy (c : CasbinEnforcer) (tenantId roleId capability : String) :
    Option CasbinEnforcer :=
  match c.ensureInitialized with
  | none => none
  | some (e, _) => some ⟨some (e.addRolePolicy tenantId roleId capability)⟩

/-- Wrapper `CasbinEnforcer.removeRolePolicy`. -/
def CasbinEnforcer.removeRolePolicy (c : CasbinEnforcer)
    (tenantId roleId capability : String) : Option CasbinEnforcer :=
  match c.ensureInitialized with
  | none => none
  | some (e, _) => some ⟨some (e.removeRolePolicy tenantId roleId capability)⟩

/-- Wrapper `CasbinEnforcer.clearRolePolicies`. -/
def CasbinEnforcer.clearRolePolicies (c : CasbinEnforcer) (tenantId roleId : String) :
    Option CasbinEnforcer :=
  match c.ensureInitialized with
  | none => none
  | some (e, _) => some ⟨some (e.clearRolePolicies tenantId roleId)⟩

/-- Wrapper `CasbinEnforcer.addUserRole`. -/
def CasbinEnforcer.addUserRole (c : CasbinEnforcer) (tenantId userId roleId : String) :
    Option CasbinEnforcer :=
  match c.ensureInitialized with
  | none => none
  | some (e, _) => some ⟨some (e.addUserRole tenantId userId roleId)⟩

/-- Wrapper `CasbinEnforcer.removeUserRole`. -/
def CasbinEnforcer.removeUserRole (c : CasbinEnforcer) (tenantId userId roleId : String) :
    Option CasbinEnforcer :=
  match c.ensureInitialized with
  | none => none
  | some (e, _) => some ⟨some (e.removeUserRole tenantId userId roleId)⟩

/-- Wrapper `CasbinEnforcer.getUserRoles`. -/
def CasbinEnforcer.getUserRoles (c : CasbinEnforcer) (tenantId userId : String) :
    Option (List String × CasbinEnforcer) :=
  match c.ensureInitialized with
  | none => none
  | some (e, c') => some (e.getUserRoles tenantId userId, c')

/-- Wrapper `CasbinEnforcer.getGrantingRoles`. -/
def CasbinEnforcer.getGrantingRoles (c : CasbinEnforcer)
    (tenantId userId capability : String) : Option (List String × CasbinEnforcer) :=
  match c.ensureInitialized with
  | none => none
  | some (e, c') => some (e.getGrantingRoles tenantId userId capability, c')

/-- Wrapper `CasbinEnforcer.getUserCapabilities`. -/
def CasbinEnforcer.getUserCapabilities (c : CasbinEnforcer) (tenantId userId : String) :
    Option (List String × CasbinEnforcer) :=
  match c.ensureInitialized with
  | none => none
  | some (e, c') => some (e.getUserCapabilities tenantId userId, c')

/-- Wrapper `CasbinEnforcer.syncPolicies`. -/
def CasbinEnforcer.syncPolicies (c : CasbinEnforcer) (roleStorage : InMemoryRoleStorage)
    (userRoleStorage : InMemoryUserRoleStorage) (tenantId : String) : Option CasbinEnforcer :=
  match c.ensureInitialized with
  | none => none
  | some (e, _) => some ⟨some (e.syncPolicies roleStorage userRoleStorage tenantId)⟩

/-! ## PermissionsService (src/permissions-service.ts)

The service owns the two storages and a `CasbinEnforcer`. The wrapper's lazy
initialization never fails (proved below for every operation), so the service
state carries the underlying enforcer tuple state directly, starting from the
fresh empty enforcer. Every operation returns its result together with the
state as it stands when the operation finishes (normally or by throw). -/

/-- `CreateRoleInput` (src/types.ts). -/
structure CreateRoleInput where
  tenantId : String
  name : String
  description : Option String
  capabilities : List String
  metadata : Option (List (String × String))
deriving Repr, DecidableEq

/-- `CreateRoleInputSchema` check (metadata always passes `z.record(z.unknown())`). -/
def CreateRoleInputSchema.check (i : CreateRoleInput) : Bool :=
  idOk i.tenantId && idOk i.name && optOk descOk i.description && i.capabilities.all capOk

/-- `UpdateRoleInput` (src/types.ts). -/
structure UpdateRoleInput where
  name : Option String
  description : Option String
  capabilities : Option (List String)
  metadata : Option (List (String × String))
deriving Repr, DecidableEq

/-- `UpdateRoleInputSchema` check. -/
def UpdateRoleInputSchema.check (i : UpdateRoleInput) : Bool :=
  optOk idOk i.name && optOk descOk i.description &&
    optOk (fun caps => caps.all capOk) i.capabilities

/-- `AssignRoleInput` (src/types.ts). -/
structure AssignRoleInput where
  tenantId : String
  userId : String
  roleId : String
  assignedBy : Option String
deriving Repr, DecidableEq

/-- `AssignRoleInputSchema` check. -/
def AssignRoleInputSchema.check (i : AssignRoleInput) : Bool :=
  idOk i.tenantId && idOk i.userId && idOk i.roleId && optOk idOk i.assignedBy

/-- `PermissionCheckInput` (src/types.ts; the optional opaque `context` plays
no role in the service). -/
structure PermissionCheckInput where
  tenantId : String
  userId : String
  capability : String
deriving Repr, DecidableEq

/-- `PermissionCheckInputSchema` check. -/
def PermissionCheckInputSchema.check (i : PermissionCheckInput) : Bool :=
  idOk i.tenantId && idOk i.userId && capOk i.capability

/-- The state owned by one `PermissionsService`: the two storages and the
enforcer index. -/
structure SysState where
  roleStorage : InMemoryRoleStorage
  userRoleStorage : InMemoryUserRoleStorage
  enf : EnfState
deriving Repr, DecidableEq

/-- A freshly constructed service over empty in-memory storages. -/
def SysState.init : SysState := ⟨⟨[]⟩, ⟨[]⟩, EnfState.empty⟩

/-- `PermissionsService.createRole`: validate, build the role (fresh id and
clock passed explicitly), write through the role store, then `addRolePolicy`
once per capability of the created role. -/
def PermissionsService.createRole (s : SysState) (input : CreateRoleInput)
    (roleId : String) (now : Nat) : Except String Role × SysState :=
  if !(CreateRoleInputSchema.check input) then (.error "ValidationError", s)
  else
    let role : Role :=
      ⟨roleId, input.tenantId, input.name, input.description, input.capabilities,
        input.metadata, now, now⟩
    match s.roleStorage.createRole role with
    | .error e => (.error e, s)
    | .ok (created, rs) =>
      let enf := created.capabilities.foldl
        (fun acc capability => acc.addRolePolicy created.tenantId created.roleId capability)
        s.enf
      (.ok created, { s with roleStorage := rs, enf := enf })

/-- `PermissionsService.getRole`. -/
def PermissionsService.getRole (s : SysState) (tenantId roleId : String) :
    Except String (Option Role) × SysState :=
  if !(idOk tenantId && idOk roleId) then (.error "ValidationError", s)
  else (.ok (s.roleStorage.getRole tenantId roleId), s)

/-- `PermissionsService.updateRole`: validate, check existence (throws `Role
not found`), write through the store, and when the update carries
`capabilities` clear the role's policies and re-add the new set. -/
def PermissionsService.updateRole (s : SysState) (tenantId roleId : String)
    (input : UpdateRoleInput) (now : Nat) : Except String Role × SysState :=
  if !(idOk tenantId && idOk roleId && UpdateRoleInputSchema.check input) then
    (.error "ValidationError", s)
  else
    match s.roleStorage.getRole tenantId roleId with
    | none => (.error ("Role not found: " ++ roleId), s)
    | some _ =>
      match s.roleStorage.updateRole tenantId roleId
          ⟨input.name, input.description, input.capabilities, input.metadata, some now⟩
          now with
      | .error e => (.error e, s)
      | .ok (updated, rs) =>
        match input.capabilities with
        | none => (.ok updated, { s with roleStorage := rs })
        | some caps =>
          let cleared := s.enf.clearRolePolicies tenantId roleId
          let enf := caps.foldl
            (fun acc capability => acc.addRolePolicy tenantId roleId capability) cleared
          (.ok updated, { s with roleStorage := rs, enf := enf })

/-- `PermissionsService.deleteRole`: clear the role's policies, then delete
from the store (assignment edges are left dangling). -/
def PermissionsService.deleteRole (s : SysState) (tenantId roleId : String) :
    Except String Unit × SysState :=
  if !(idOk tenantId && idOk roleId) then (.error "ValidationError", s)
  else
    let enf := s.enf.clearRolePolicies tenantId roleId
    let rs := s.roleStorage.deleteRole tenantId roleId
    (.ok (), { s with roleStorage := rs, enf := enf })

/-- `PermissionsService.listRoles`. -/
def PermissionsService.listRoles (s : SysState) (tenantId : String) :
    Except String (List Role) × SysState :=
  if !(idOk tenantId) then (.error "ValidationError", s)
  else (.ok (s.roleStorage.listRoles tenantId), s)

/-- `PermissionsService.assignRole`: validate, verify the role exists (throws
`Role not found`), upsert the assignment, then `addUserRole`. -/
def PermissionsService.assignRole (s : SysState) (input : AssignRoleInput) (now : Nat) :
    Except String UserRoleAssignment × SysState :=
  if !(AssignRoleInputSchema.check input) then (.error "ValidationError", s)
  else
    match s.roleStorage.getRole input.tenantId input.roleId with
    | none => (.error ("Role not found: " ++ input.roleId), s)
    | some _ =>
      let assignment : UserRoleAssignment :=
        ⟨input.tenantId, input.userId, input.roleId, now, input.assignedBy⟩
      let result := s.userRoleStorage.assignRole assignment
      let enf := s.enf.addUserRole input.tenantId input.userId input.roleId
      (.ok result.1, { s with userRoleStorage := result.2, enf := enf })

/-- `PermissionsService.removeRole`: idempotent removal write-through plus
`removeUserRole`. -/
def PermissionsService.removeRole (s : SysState) (tenantId userId roleId : String) :
    Except String Unit × SysState :=
  if !(idOk tenantId && idOk userId && idOk roleId) then (.error "ValidationError", s)
  else
    let us := s.userRoleStorage.removeRole tenantId userId roleId
    let enf := s.enf.removeUserRole tenantId userId roleId
    (.ok (), { s with userRoleStorage := us, enf := enf })

/-- `PermissionsService.getUserRoles`: the assignment store's role ids,
resolved against the role store; ids whose role no longer exists are
dropped. -/
def PermissionsService.getUserRoles (s : SysState) (tenantId userId : String) :
    Except String (List Role) × SysState :=
  if !(idOk tenantId && idOk userId) then (.error "ValidationError", s)
  else
    let roleIds := s.userRoleStorage.getUserRoles tenantId userId
    (.ok (roleIds.filterMap (fun roleId => s.roleStorage.getRole tenantId roleId)), s)

/-- `PermissionsService.getUserCapabilities`: union (JS `Set`) of the
capability lists of `getUserRoles`. -/
def PermissionsService.getUserCapabilities (s : SysState) (tenantId userId : String) :
    Except String (List String) × SysState :=
  match (PermissionsService.getUserRoles s tenantId userId).1 with
  | .error e => (.error e, s)
  | .ok roles => (.ok (jsSetList (roles.flatMap (fun role => role.capabilities))), s)

/-- `PermissionsService.checkPermission`: enforce; on success compute the
granting roles and resolve each to a provenance string; on denial return the
fixed denial record. -/
def PermissionsService.checkPermission (s : SysState) (input : PermissionCheckInput) :
    Except String PermissionCheckResult × SysState :=
  if !(PermissionCheckInputSchema.check input) then (.error "ValidationError", s)
  else
    let allowed := s.enf.enforce input.userId input.tenantId input.capability
    if allowed then
      let grantingRoles := s.enf.getGrantingRoles input.tenantId input.userId input.capability
      let grantedBy := grantingRoles.filterMap (fun roleId =>
        match s.roleStorage.getRole input.tenantId roleId with
        | some role => some ("role:" ++ role.name ++ " (" ++ role.roleId ++ ")")
        | none => none)
      (.ok ⟨true, grantedBy,
        some ("Access granted by " ++ toString grantedBy.length ++ " role(s)")⟩, s)
    else
      (.ok ⟨false, [], some ("User does not have capability: " ++ input.capability)⟩, s)

/-! ## Tenant-scoped mutation sequences (for the noninterference property) -/

/-- One mutation addressed to a fixed tenant: the service-level mutations and
the primitive index mutations of the adapter. -/
inductive TenantOp where
  | createOp (roleId name : String) (description : Option String)
      (capabilities : List String) (metadata : Option (List (String × String))) (now : Nat)
  | updateOp (roleId : String) (input : UpdateRoleInput) (now : Nat)
  | deleteOp (roleId : String)
  | assignOp (userId roleId : String) (assignedBy : Option String) (now : Nat)
  | removeOp (userId roleId : String)
  | addPolicyOp (roleId capability : String)
  | removePolicyOp (roleId capability : String)
  | clearPoliciesOp (roleId : String)
  | addUserRoleOp (userId roleId : String)
  | removeUserRoleOp (userId roleId : String)

/-- Run one mutation under tenant `t`; a thrown error leaves the state the
operation returned at the throw point. -/
def applyTenantOp (t : String) (s : SysState) : TenantOp → SysState
  | .createOp roleId name description capabilities metadata now =>
    (PermissionsService.createRole s ⟨t, name, description, capabilities, metadata⟩
      roleId now).2
  | .updateOp roleId input now => (PermissionsService.updateRole s t roleId input now).2
  | .deleteOp roleId => (PermissionsService.deleteRole s t roleId).2
  | .assignOp userId roleId assignedBy now =>
    (PermissionsService.assignRole s ⟨t, userId, roleId, assignedBy⟩ now).2
  | .removeOp userId roleId => (PermissionsService.removeRole s t userId roleId).2
  | .addPolicyOp roleId capability =>
    { s with enf := s.enf.addRolePolicy t roleId capability }
  | .removePolicyOp roleId capability =>
    { s with enf := s.enf.removeRolePolicy t roleId capability }
  | .clearPoliciesOp roleId => { s with enf := s.enf.clearRolePolicies t roleId }
  | .addUserRoleOp userId roleId => { s with enf := s.enf.addUserRole t userId roleId }
  | .removeUserRoleOp userId roleId =>
    { s with enf := s.enf.removeUserRole t userId roleId }

/-! ## Helper lemmas about the JS map model -/

theorem mapGet_mapSet_self {α : Type} (k : String) (v : α) (l : List (String × α)) :
    mapGet k (mapSet k v l) = some v := by
  induction l with
  | nil => simp [mapSet, mapGet]
  | cons kv rest ih =>
    by_cases h : kv.1 = k
    · simp [mapSet, mapGet, h]
    · simp [mapSet, mapGet, h, ih]

theorem mapGet_mapSet_ne {α : Type} (k k' : String) (v : α) (l : List (String × α))
    (h : k' ≠ k) : mapGet k' (mapSet k v l) = mapGet k' l := by
  have h' : ¬(k = k') := fun hc => h hc.symm
  induction l with
  | nil => simp [mapSet, mapGet, h']
  | cons kv rest ih =>
    by_cases hk : kv.1 = k
    · have hne : ¬(kv.1 = k') := fun hc => h' (hk.symm.trans hc)
      simp [mapSet, mapGet, hk, h', hne]
    · by_cases hk' : kv.1 = k'
      · simp [mapSet, mapGet, hk, hk', h]
      · simp [mapSet, mapGet, hk, hk', ih]

theorem mapGet_mem {α : Type} {k : String} {v : α} {l : List (String × α)}
    (h : mapGet k l = some v) : (k, v) ∈ l := by
  induction l with
  | nil => simp [mapGet] at h
  | cons kv rest ih =>
    by_cases hk : kv.1 = k
    · simp [mapGet, hk] at h
      have hkv : kv = (k, v) := by
        cases kv with
        | mk a b => simp_all
      rw [← hkv]
      exact List.mem_cons_self _ _
    · simp [mapGet, hk] at h
      exact List.mem_cons_of_mem _ (ih h)

theorem mapSet_mapSet_same {α : Type} (k : String) (v v' : α) (l : List (String × α)) :
    mapSet k v (mapSet k v' l) = mapSet k v l := by
  induction l with
  | nil => simp [mapSet]
  | cons kv rest ih =>
    by_cases h : kv.1 = k
    · simp [mapSet, h]
    · simp [mapSet, h, ih]

/-- The keys written by `mapSet` do not depend on the stored value. -/
theorem mapSet_keys_value_free {α : Type} (k : String) (v v' : α) (l : List (String × α)) :
    (mapSet k v l).map (fun kv => kv.1) = (mapSet k v' l).map (fun kv => kv.1) := by
  induction l with
  | nil => simp [mapSet]
  | cons kv rest ih =>
    by_cases h : kv.1 = k
    · simp [mapSet, h]
    · simp [mapSet, h, ih]

/-- Filtering on keys and projecting a value view is unaffected by swapping
the stored value of one key for another with the same view. -/
theorem mapSet_filter_map_congr {α β : Type} (k : String) (v v' : α)
    (l : List (String × α)) (p : String → Bool) (f : α → β) (hf : f v = f v') :
    ((mapSet k v l).filter (fun kv => p kv.1)).map (fun kv => f kv.2)
      = ((mapSet k v' l).filter (fun kv => p kv.1)).map (fun kv => f kv.2) := by
  induction l with
  | nil =>
    by_cases hp : p k = true
    · simp [mapSet, hp, hf]
    · simp [mapSet, hp]
  | cons kv rest ih =>
    by_cases h : kv.1 = k
    · by_cases hp : p k = true
      · simp [mapSet, h, hp, hf]
      · simp [mapSet, h, hp]
    · by_cases hp : p kv.1 = true
      · simp [mapSet, h, hp, ih]
      · simp [mapSet, h, hp, ih]

/-! ## Helper lemmas about the evaluation index -/

theorem mem_addTriple (t x : Triple) (l : List Triple) :
    x ∈ addTriple t l ↔ x ∈ l ∨ x = t := by
  unfold addTriple
  by_cases h : t ∈ l
  · simp only [if_pos h]
    constructor
    · exact Or.inl
    · rintro (hx | rfl)
      · exact hx
      · exact h
  · simp [h]

theorem mem_removeTriple (t x : Triple) (l : List Triple) :
    x ∈ removeTriple t l ↔ x ∈ l ∧ x ≠ t := by
  unfold removeTriple
  simp [List.mem_filter]

theorem foldl_removeTriple_eq_filter (ms l : List Triple) :
    ms.foldl (fun acc x => removeTriple x acc) l
      = l.filter (fun q => decide (q ∉ ms)) := by
  induction ms generalizing l with
  | nil => simp
  | cons x rest ih =>
    simp only [List.foldl_cons]
    rw [ih]
    unfold removeTriple
    rw [List.filter_filter]
    apply List.filter_congr
    intro q _
    by_cases h1 : q = x
    · simp [h1]
    · by_cases h2 : q ∈ rest
      · simp [h1, h2]
      · simp [h1, h2]

theorem clearRolePolicies_policies_mem (s : EnfState) (tenantId roleId : String)
    (p : Triple) :
    p ∈ (s.clearRolePolicies tenantId roleId).policies
      ↔ p ∈ s.policies ∧ ¬(p.1 = roleId ∧ p.2.1 = tenantId) := by
  unfold EnfState.clearRolePolicies
  simp only [foldl_removeTriple_eq_filter, List.mem_filter, decide_eq_true_eq,
    beq_iff_eq, Bool.and_eq_true]
  tauto

theorem clearRolePolicies_groupings (s : EnfState) (tenantId roleId : String) :
    (s.clearRolePolicies tenantId roleId).groupings = s.groupings := rfl

theorem addRolePolicy_policies_mem (s : EnfState) (tenantId roleId capability : String)
    (p : Triple) :
    p ∈ (s.addRolePolicy tenantId roleId capability).policies
      ↔ p ∈ s.policies ∨ p = (roleId, tenantId, capability) :=
  mem_addTriple _ _ _

theorem addRolePolicy_groupings (s : EnfState) (tenantId roleId capability : String) :
    (s.addRolePolicy tenantId roleId capability).groupings = s.groupings := rfl

theorem foldl_addRolePolicy_policies_mem (caps : List String) (s : EnfState)
    (tenantId roleId : String) (p : Triple) :
    p ∈ (caps.foldl (fun acc c => acc.addRolePolicy tenantId roleId c) s).policies
      ↔ p ∈ s.policies ∨ ∃ c ∈ caps, p = (roleId, tenantId, c) := by
  induction caps generalizing s with
  | nil => simp
  | cons c rest ih =>
    simp only [List.foldl_cons, ih, addRolePolicy_policies_mem, List.mem_cons]
    constructor
    · rintro ((hp | rfl) | ⟨c', hc', rfl⟩)
      · exact Or.inl hp
      · exact Or.inr ⟨c, Or.inl rfl, rfl⟩
      · exact Or.inr ⟨c', Or.inr hc', rfl⟩
    · rintro (hp | ⟨c', (rfl | hc'), rfl⟩)
      · exact Or.inl (Or.inl hp)
      · exact Or.inl (Or.inr rfl)
      · exact Or.inr ⟨c', hc', rfl⟩

theorem foldl_addRolePolicy_groupings (caps : List String) (s : EnfState)
    (tenantId roleId : String) :
    (caps.foldl (fun acc c => acc.addRolePolicy tenantId roleId c) s).groupings
      = s.groupings := by
  induction caps generalizing s with
  | nil => rfl
  | cons c rest ih => simp only [List.foldl_cons, ih, addRolePolicy_groupings]

/-- The matcher characterization: `enforce(sub, dom, act)` holds exactly when
some role links the subject to the domain and carries the action in that same
domain. -/
theorem enforce_iff (s : EnfState) (sub dom act : String) :
    s.enforce sub dom act = true
      ↔ ∃ r, (sub, r, dom) ∈ s.groupings ∧ (r, dom, act) ∈ s.policies := by
  unfold EnfState.enforce
  simp only [List.any_eq_true, Bool.and_eq_true, decide_eq_true_eq, beq_iff_eq]
  constructor
  · rintro ⟨p, hp, ⟨hg, hdom⟩, hact⟩
    refine ⟨p.1, ?_, ?_⟩
    · exact hg
    · have : p = (p.1, dom, act) := by
        cases p with
        | mk a bc =>
          cases bc with
          | mk b c => simp_all
      exact this ▸ hp
  · rintro ⟨r, hg, hp⟩
    exact ⟨(r, dom, act), hp, ⟨hg, rfl⟩, rfl⟩

/-! ## C1: the matching rule is domain-strict -/

/-- C1: for every index state, `enforce(tenant, user, capability)` (evaluated
by the adapter as `enforce(userId, tenantId, capability)`) returns true iff
some role has a membership edge `(user, role)` recorded for that tenant and a
grant edge `(role, capability)` recorded for that same tenant; edges recorded
under different tenants never combine, whatever the id strings. -/
theorem enforce_true_iff_same_tenant_membership_and_grant
    (s : EnfState) (tenantId userId capability : String) :
    s.enforce userId tenantId capability = true
      ↔ ∃ roleId, (userId, roleId, tenantId) ∈ s.groupings
          ∧ (roleId, tenantId, capability) ∈ s.policies :=
  enforce_iff s userId tenantId capability

/-! ## C10: every adapter operation is safe without an explicit initialize -/

theorem ensureInitialized_isSome (c : CasbinEnforcer) :
    (c.ensureInitialized).isSome := by
  cases hc : c.enforcer with
  | none => simp [CasbinEnforcer.ensureInitialized, hc]
  | some e => simp [CasbinEnforcer.ensureInitialized, hc]

/-- C10: every public `CasbinEnforcer` operation can be called in any order
without a prior explicit `initialize()`: the enforcer is created lazily, the
non-null dereference inside `ensureInitialized` never fails, and no operation
errors due to uninitialized state. -/
theorem casbin_operations_succeed_without_explicit_init
    (c : CasbinEnforcer) (tenantId userId roleId capability : String)
    (rs : InMemoryRoleStorage) (us : InMemoryUserRoleStorage) :
    (c.enforce tenantId userId capability).isSome
    ∧ (c.addRolePolicy tenantId roleId capability).isSome
    ∧ (c.removeRolePolicy tenantId roleId capability).isSome
    ∧ (c.clearRolePolicies tenantId roleId).isSome
    ∧ (c.addUserRole tenantId userId roleId).isSome
    ∧ (c.removeUserRole tenantId userId roleId).isSome
    ∧ (c.getGrantingRoles tenantId userId capability).isSome
    ∧ (c.getUserCapabilities tenantId userId).isSome
    ∧ (c.getUserRoles tenantId userId).isSome
    ∧ (c.syncPolicies rs us tenantId).isSome := by
  obtain ⟨ec, hec⟩ := Option.isSome_iff_exists.mp (ensureInitialized_isSome c)
  obtain ⟨e, c'⟩ := ec
  refine ⟨?_, ?_, ?_, ?_, ?_, ?_, ?_, ?_, ?_, ?_⟩ <;>
    simp [CasbinEnforcer.enforce, CasbinEnforcer.addRolePolicy,
      CasbinEnforcer.removeRolePolicy, CasbinEnforcer.clearRolePolicies,
      CasbinEnforcer.addUserRole, CasbinEnforcer.removeUserRole,
      CasbinEnforcer.getGrantingRoles, CasbinEnforcer.getUserCapabilities,
      CasbinEnforcer.getUserRoles, CasbinEnforcer.syncPolicies, hec]

/-! ## C2: two-run noninterference across tenants -/

/-- Agreement of two index states on every tuple whose domain differs from
`t`. -/
def OffTenantEq (t : String) (e e' : EnfState) : Prop :=
  (∀ r dom c, dom ≠ t → ((r, dom, c) ∈ e'.policies ↔ (r, dom, c) ∈ e.policies))
  ∧ (∀ u r dom, dom ≠ t → ((u, r, dom) ∈ e'.groupings ↔ (u, r, dom) ∈ e.groupings))

theorem offTenantEq_refl (t : String) (e : EnfState) : OffTenantEq t e e :=
  ⟨fun _ _ _ _ => Iff.rfl, fun _ _ _ _ => Iff.rfl⟩

theorem offTenantEq_trans {t : String} {e1 e2 e3 : EnfState}
    (h12 : OffTenantEq t e1 e2) (h23 : OffTenantEq t e2 e3) : OffTenantEq t e1 e3 :=
  ⟨fun r dom c hdom => (h23.1 r dom c hdom).trans (h12.1 r dom c hdom),
   fun u r dom hdom => (h23.2 u r dom hdom).trans (h12.2 u r dom hdom)⟩

theorem offTenantEq_clear (t roleId : String) (e : EnfState) :
    OffTenantEq t e (e.clearRolePolicies t roleId) := by
  constructor
  · intro r dom c hdom
    rw [clearRolePolicies_policies_mem]
    simp only [and_iff_left_iff_imp]
    intro _ hmatch
    exact hdom hmatch.2
  · intro u r dom hdom
    rw [clearRolePolicies_groupings]

theorem offTenantEq_foldl_addRolePolicy (t roleId : String) (caps : List String)
    (e : EnfState) :
    OffTenantEq t e (caps.foldl (fun acc c => acc.addRolePolicy t roleId c) e) := by
  constructor
  · intro r dom c hdom
    rw [foldl_addRolePolicy_policies_mem]
    simp only [or_iff_left_iff_imp]
    rintro ⟨c', _, hp⟩
    exact absurd (congrArg (fun q : Triple => q.2.1) hp) hdom
  · intro u r dom hdom
    rw [foldl_addRolePolicy_groupings]

theorem offTenantEq_addUserRole (t userId roleId : String) (e : EnfState) :
    OffTenantEq t e (e.addUserRole t userId roleId) := by
  constructor
  · intro r dom c _
    exact Iff.rfl
  · intro u r dom hdom
    show (u, r, dom) ∈ addTriple (userId, roleId, t) e.groupings ↔ _
    rw [mem_addTriple]
    simp only [or_iff_left_iff_imp]
    intro hp
    exact absurd (congrArg (fun q : Triple => q.2.2) hp) hdom

theorem offTenantEq_removeUserRole (t userId roleId : String) (e : EnfState) :
    OffTenantEq t e (e.removeUserRole t userId roleId) := by
  constructor
  · intro r dom c _
    exact Iff.rfl
  · intro u r dom hdom
    show (u, r, dom) ∈ removeTriple (userId, roleId, t) e.groupings ↔ _
    rw [mem_removeTriple]
    simp only [and_iff_left_iff_imp]
    intro _ hp
    exact hdom (congrArg (fun q : Triple => q.2.2) hp)

theorem offTenantEq_addRolePolicy (t roleId capability : String) (e : EnfState) :
    OffTenantEq t e (e.addRolePolicy t roleId capability) := by
  constructor
  · intro r dom c hdom
    rw [addRolePolicy_policies_mem]
    simp only [or_iff_left_iff_imp]
    intro hp
    exact absurd (congrArg (fun q : Triple => q.2.1) hp) hdom
  · intro u r dom _
    rw [addRolePolicy_groupings]

theorem offTenantEq_removeRolePolicy (t roleId capability : String) (e : EnfState) :
    OffTenantEq t e (e.removeRolePolicy t roleId capability) := by
  constructor
  · intro r dom c hdom
    show (r, dom, c) ∈ removeTriple (roleId, t, capability) e.policies ↔ _
    rw [mem_removeTriple]
    simp only [and_iff_left_iff_imp]
    intro _ hp
    exact hdom (congrArg (fun q : Triple => q.2.1) hp)
  · intro u r dom _
    exact Iff.rfl

theorem applyTenantOp_offTenantEq (t : String) (s : SysState) (op : TenantOp) :
    OffTenantEq t s.enf (applyTenantOp t s op).enf := by
  cases op with
  | createOp roleId name description capabilities metadata now =>
    simp only [applyTenantOp, PermissionsService.createRole]
    split
    · exact offTenantEq_refl t s.enf
    · split
      · exact offTenantEq_refl t s.enf
      · rename_i created rs heq
        unfold InMemoryRoleStorage.createRole at heq
        split at heq
        · exact absurd heq (by simp)
        · simp only [Except.ok.injEq, Prod.mk.injEq] at heq
          obtain ⟨hcreated, _⟩ := heq
          subst hcreated
          exact offTenantEq_foldl_addRolePolicy t roleId capabilities s.enf
  | updateOp roleId input now =>
    simp only [applyTenantOp, PermissionsService.updateRole]
    split
    · exact offTenantEq_refl t s.enf
    · split
      · exact offTenantEq_refl t s.enf
      · split
        · exact offTenantEq_refl t s.enf
        · split
          · exact offTenantEq_refl t s.enf
          · exact offTenantEq_trans (offTenantEq_clear t roleId s.enf)
              (offTenantEq_foldl_addRolePolicy t roleId _ _)
  | deleteOp roleId =>
    simp only [applyTenantOp, PermissionsService.deleteRole]
    split
    · exact offTenantEq_refl t s.enf
    · exact offTenantEq_clear t roleId s.enf
  | assignOp userId roleId assignedBy now =>
    simp only [applyTenantOp, PermissionsService.assignRole]
    split
    · exact offTenantEq_refl t s.enf
    · split
      · exact offTenantEq_refl t s.enf
      · exact offTenantEq_addUserRole t userId roleId s.enf
  | removeOp userId roleId =>
    simp only [applyTenantOp, PermissionsService.removeRole]
    split
    · exact offTenantEq_refl t s.enf
    · exact offTenantEq_removeUserRole t userId roleId s.enf
  | addPolicyOp roleId capability =>
    exact offTenantEq_addRolePolicy t roleId capability s.enf
  | removePolicyOp roleId capability =>
    exact offTenantEq_removeRolePolicy t roleId capability s.enf
  | clearPoliciesOp roleId =>
    exact offTenantEq_clear t roleId s.enf
  | addUserRoleOp userId roleId =>
    exact offTenantEq_addUserRole t userId roleId s.enf
  | removeUserRoleOp userId roleId =>
    exact offTenantEq_removeUserRole t userId roleId s.enf

theorem foldl_applyTenantOp_offTenantEq (t : String) (ops : List TenantOp) (s : SysState) :
    OffTenantEq t s.enf ((ops.foldl (applyTenantOp t) s)).enf := by
  induction ops generalizing s with
  | nil => exact offTenantEq_refl t s.enf
  | cons op rest ih =>
    exact offTenantEq_trans (applyTenantOp_offTenantEq t s op) (ih _)

/-- C2: any sequence of mutations issued under tenant `t1` (service-level or
primitive index mutations) leaves `enforce` for any other tenant `t2` exactly
as it was, whatever id strings the two tenants share. -/
theorem mutations_under_one_tenant_preserve_other_tenant_enforce
    (t1 t2 userId capability : String) (ops : List TenantOp) (s : SysState)
    (hne : t2 ≠ t1) :
    (ops.foldl (applyTenantOp t1) s).enf.enforce userId t2 capability
      = s.enf.enforce userId t2 capability := by
  have hoff := foldl_applyTenantOp_offTenantEq t1 ops s
  rw [Bool.eq_iff_iff, enforce_iff, enforce_iff]
  constructor
  · rintro ⟨r, hg, hp⟩
    exact ⟨r, (hoff.2 userId r t2 hne).mp hg, (hoff.1 r t2 capability hne).mp hp⟩
  · rintro ⟨r, hg, hp⟩
    exact ⟨r, (hoff.2 userId r t2 hne).mpr hg, (hoff.1 r t2 capability hne).mpr hp⟩

/-- Witness for C2 at a concrete input: granting `pos:create-sale` to
`role-1` and `role-1` to `user-1` inside `tenant-1` leaves enforcement in
`tenant-2` untouched. -/
theorem mutations_under_one_tenant_preserve_other_tenant_enforce_witness :
    ("tenant-2" : String) ≠ "tenant-1"
    ∧ (([TenantOp.addPolicyOp "role-1" "pos:create-sale",
          TenantOp.addUserRoleOp "user-1" "role-1"]).foldl
            (applyTenantOp "tenant-1") SysState.init).enf.enforce
          "user-1" "tenant-2" "pos:create-sale"
        = SysState.init.enf.enforce "user-1" "tenant-2" "pos:create-sale" :=
  ⟨by decide,
    mutations_under_one_tenant_preserve_other_tenant_enforce
      "tenant-1" "tenant-2" "user-1" "pos:create-sale"
      [TenantOp.addPolicyOp "role-1" "pos:create-sale",
        TenantOp.addUserRoleOp "user-1" "role-1"]
      SysState.init (by decide)⟩

/-! ## C3: the composite role key is not injective on valid identifiers -/

/-- The role exhibiting the composite-key collision: tenant `a`, role id
`b:c` (both valid identifiers: non-empty, at most 255 characters). -/
def collisionRole : Role :=
  ⟨"b:c", "a", "Admin", none, ["pos:create-sale"], none, 0, 0⟩

/-- C3 fails on the code: all four identifiers are valid, the store state is
reached by one `createRole` on an empty store, yet `getRole("a:b", "c")`
returns the role that belongs to tenant `a` — a role of a different tenant —
because `` `${tenantId}:${roleId}` `` maps `("a", "b:c")` and `("a:b", "c")`
to the same key. -/
theorem getRole_returns_role_of_other_tenant :
    idOk "a" = true ∧ idOk "b:c" = true ∧ idOk "a:b" = true ∧ idOk "c" = true
    ∧ InMemoryRoleStorage.createRole ⟨[]⟩ collisionRole
        = .ok (collisionRole, ⟨[(roleKey "a" "b:c", collisionRole)]⟩)
    ∧ InMemoryRoleStorage.getRole ⟨[(roleKey "a" "b:c", collisionRole)]⟩ "a:b" "c"
        = some collisionRole
    ∧ collisionRole.tenantId ≠ "a:b" := by
  refine ⟨by decide, by decide, by decide, by decide, ?_, ?_, by decide⟩
  · rfl
  · show mapGet (roleKey "a:b" "c") [(roleKey "a" "b:c", collisionRole)] = some collisionRole
    have hkey : roleKey "a" "b:c" = roleKey "a:b" "c" := by decide
    rw [hkey]
    exact mapGet_mapSet_self (roleKey "a:b" "c") collisionRole []

/-! ## C4: deleting a role leaves its dangling assignment edges unresolved -/

/-- `getKey(tenantId, userId, roleId)` is `getUserKey(tenantId, userId)`
followed by the role id. -/
theorem assignKey_eq_userKey_append (t u r : String) :
    assignKey t u r = userKey t u ++ r := rfl

theorem strStartsWith_append (p r : String) : strStartsWith (p ++ r) p = true := by
  unfold strStartsWith
  rw [String.data_append, List.isPrefixOf_iff_prefix]
  exact List.prefix_append p.data r.data

theorem optOk_none {α : Type} (f : α → Bool) : optOk f none = true := rfl

theorem filterMap_const_none {α β : Type} (l : List α) :
    l.filterMap (fun _ => (none : Option β)) = [] := by
  induction l with
  | nil => rfl
  | cons x rest ih => simp [List.filterMap, ih]

/-- C4: from a fresh service, create role `r1` in `t1`, assign it to `u1`,
then delete it: `getUserRoles(t1, u1)` and `getUserCapabilities(t1, u1)` both
return the empty list — the dangling assignment edge is excluded during
resolution. -/
theorem deleted_role_excluded_from_user_roles_and_capabilities
    (t1 u1 r1 name : String) (description : Option String) (caps : List String)
    (metadata : Option (List (String × String))) (now1 now2 : Nat)
    (ht : idOk t1 = true) (hu : idOk u1 = true) (hr : idOk r1 = true)
    (hn : idOk name = true) (hd : optOk descOk description = true)
    (hc : caps.all capOk = true) :
    (PermissionsService.getUserRoles
        (PermissionsService.deleteRole
          (PermissionsService.assignRole
            (PermissionsService.createRole SysState.init
              ⟨t1, name, description, caps, metadata⟩ r1 now1).2
            ⟨t1, u1, r1, none⟩ now2).2
          t1 r1).2
        t1 u1).1 = .ok []
    ∧ (PermissionsService.getUserCapabilities
        (PermissionsService.deleteRole
          (PermissionsService.assignRole
            (PermissionsService.createRole SysState.init
              ⟨t1, name, description, caps, metadata⟩ r1 now1).2
            ⟨t1, u1, r1, none⟩ now2).2
          t1 r1).2
        t1 u1).1 = .ok [] := by
  have hpfx : strStartsWith (assignKey t1 u1 r1) (userKey t1 u1) = true := by
    rw [assignKey_eq_userKey_append]
    exact strStartsWith_append (userKey t1 u1) r1
  constructor <;>
    simp [PermissionsService.createRole, PermissionsService.assignRole,
      PermissionsService.deleteRole, PermissionsService.getUserRoles,
      PermissionsService.getUserCapabilities, CreateRoleInputSchema.check,
      AssignRoleInputSchema.check, InMemoryRoleStorage.createRole,
      InMemoryRoleStorage.getRole, InMemoryRoleStorage.deleteRole,
      InMemoryUserRoleStorage.assignRole, InMemoryUserRoleStorage.getUserRoles,
      SysState.init, mapGet, mapSet, mapDelete, optOk_none, Function.comp,
      filterMap_const_none, ht, hu, hr, hn, hd, hc, hpfx, jsSetList]

/-- Witness for C4 at concrete identifiers. -/
theorem deleted_role_excluded_from_user_roles_and_capabilities_witness :
    (PermissionsService.getUserRoles
        (PermissionsService.deleteRole
          (PermissionsService.assignRole
            (PermissionsService.createRole SysState.init
              ⟨"tenant-1", "Admin", none, ["pos:create-sale"], none⟩ "role-1" 0).2
            ⟨"tenant-1", "user-1", "role-1", none⟩ 1).2
          "tenant-1" "role-1").2
        "tenant-1" "user-1").1 = .ok []
    ∧ (PermissionsService.getUserCapabilities
        (PermissionsService.deleteRole
          (PermissionsService.assignRole
            (PermissionsService.createRole SysState.init
              ⟨"tenant-1", "Admin", none, ["pos:create-sale"], none⟩ "role-1" 0).2
            ⟨"tenant-1", "user-1", "role-1", none⟩ 1).2
          "tenant-1" "role-1").2
        "tenant-1" "user-1").1 = .ok [] :=
  deleted_role_excluded_from_user_roles_and_capabilities
    "tenant-1" "user-1" "role-1" "Admin" none ["pos:create-sale"] none 0 1
    (by decide) (by decide) (by decide) (by decide) (by decide) (by decide)

/-! ## C6: the shape of a denied checkPermission result -/

/-- C6 as stated is false: at a valid concrete input on which enforce is
false, `checkPermission` does answer `allowed: false` with empty `grantedBy`,
but its reason is the string `User does not have capability: <capability>`,
not `capability not granted`. -/
theorem checkPermission_denial_reason_counterexample :
    SysState.init.enf.enforce "user-1" "tenant-1" "pos:create-sale" = false
    ∧ (PermissionsService.checkPermission SysState.init
        ⟨"tenant-1", "user-1", "pos:create-sale"⟩).1
      = .ok ⟨false, [], some "User does not have capability: pos:create-sale"⟩
    ∧ (PermissionsService.checkPermission SysState.init
        ⟨"tenant-1", "user-1", "pos:create-sale"⟩).1
      ≠ .ok ⟨false, [], some "capability not granted"⟩ := by
  refine ⟨by decide, rfl, ?_⟩
  intro h
  rw [show (PermissionsService.checkPermission SysState.init
      ⟨"tenant-1", "user-1", "pos:create-sale"⟩).1
      = .ok ⟨false, [], some "User does not have capability: pos:create-sale"⟩ from rfl] at h
  injection h with h2
  exact absurd (congrArg PermissionCheckResult.reason h2) (by decide)

/-- C6 (amended): for every validated `(tenant, user, capability)` on which
enforce returns false, `checkPermission` returns
`{allowed: false, grantedBy: [], reason: "User does not have capability: <capability>"}`
(the code's literal denial reason) and leaves the state unchanged. -/
theorem checkPermission_denied_shape
    (s : SysState) (input : PermissionCheckInput)
    (hchk : PermissionCheckInputSchema.check input = true)
    (hf : s.enf.enforce input.userId input.tenantId input.capability = false) :
    PermissionsService.checkPermission s input
      = (.ok ⟨false, [], some ("User does not have capability: " ++ input.capability)⟩,
          s) := by
  simp only [PermissionsService.checkPermission, hchk, Bool.not_true,
    Bool.false_eq_true, if_false, hf]

/-- Witness for the amended C6 at a concrete denied input. -/
theorem checkPermission_denied_shape_witness :
    PermissionsService.checkPermission SysState.init
        ⟨"tenant-1", "user-1", "pos:refund-sale"⟩
      = (.ok ⟨false, [], some ("User does not have capability: " ++ "pos:refund-sale")⟩,
          SysState.init) :=
  checkPermission_denied_shape SysState.init ⟨"tenant-1", "user-1", "pos:refund-sale"⟩
    (by decide) (by decide)

/-! ## C7: assignRole is idempotent on an identical triple -/

/-- C7: for an existing role, a second `assignRole` with the identical
`(tenantId, userId, roleId)` triple creates no second edge: the stored keys
are the same as after the first call and `getUserRoles` returns the very same
list (hence the same length). -/
theorem assignRole_idempotent
    (s : SysState) (input : AssignRoleInput) (now1 now2 : Nat)
    (hchk : AssignRoleInputSchema.check input = true)
    (hrole : (s.roleStorage.getRole input.tenantId input.roleId).isSome = true) :
    (PermissionsService.assignRole (PermissionsService.assignRole s input now1).2 input now2).2.userRoleStorage.assignments.map (fun kv => kv.1)
      = (PermissionsService.assignRole s input now1).2.userRoleStorage.assignments.map (fun kv => kv.1)
    ∧ (PermissionsService.getUserRoles
        (PermissionsService.assignRole
          (PermissionsService.assignRole s input now1).2 input now2).2
        input.tenantId input.userId).1
      = (PermissionsService.getUserRoles
          (PermissionsService.assignRole s input now1).2
          input.tenantId input.userId).1 := by
  obtain ⟨rs, us, e0⟩ := s
  obtain ⟨existing, hex⟩ := Option.isSome_iff_exists.mp hrole
  have hex' : mapGet (roleKey input.tenantId input.roleId) rs.roles = some existing := hex
  have hids := hchk
  simp only [AssignRoleInputSchema.check, Bool.and_eq_true] at hids
  obtain ⟨⟨⟨ht, hu⟩, hrid⟩, hab⟩ := hids
  have hone : ∀ (u : InMemoryUserRoleStorage) (e : EnfState) (now : Nat),
      PermissionsService.assignRole ⟨rs, u, e⟩ input now
        = (.ok ⟨input.tenantId, input.userId, input.roleId, now, input.assignedBy⟩,
            ⟨rs,
              ⟨mapSet (assignKey input.tenantId input.userId input.roleId)
                ⟨input.tenantId, input.userId, input.roleId, now, input.assignedBy⟩
                u.assignments⟩,
              e.addUserRole input.tenantId input.userId input.roleId⟩) := by
    intro u e now
    simp [PermissionsService.assignRole, InMemoryRoleStorage.getRole, hchk, hex',
      InMemoryUserRoleStorage.assignRole]
  rw [hone us e0 now1, hone _ _ now2]
  constructor
  · show (mapSet (assignKey input.tenantId input.userId input.roleId) _
        (mapSet (assignKey input.tenantId input.userId input.roleId) _
          us.assignments)).map (fun kv => kv.1) = _
    rw [mapSet_mapSet_same]
    exact mapSet_keys_value_free _ _ _ _
  · simp only [PermissionsService.getUserRoles, InMemoryUserRoleStorage.getUserRoles,
      ht, hu, Bool.and_self, Bool.not_true, Bool.false_eq_true, if_false]
    rw [mapSet_mapSet_same]
    have hmm := mapSet_filter_map_congr
      (assignKey input.tenantId input.userId input.roleId)
      (⟨input.tenantId, input.userId, input.roleId, now2, input.assignedBy⟩ :
        UserRoleAssignment)
      (⟨input.tenantId, input.userId, input.roleId, now1, input.assignedBy⟩ :
        UserRoleAssignment)
      us.assignments
      (fun key => strStartsWith key (userKey input.tenantId input.userId))
      (fun a => a.roleId) rfl
    rw [hmm]

/-- Witness state for C7: tenant `t1` owns role `r1`. -/
def assignDemoState : SysState :=
  ⟨⟨[(roleKey "t1" "r1", ⟨"r1", "t1", "Admin", none, ["pos:create-sale"], none, 0, 0⟩)]⟩,
    ⟨[]⟩, EnfState.empty⟩

/-- Witness for C7 at concrete inputs. -/
theorem assignRole_idempotent_witness :
    (PermissionsService.assignRole (PermissionsService.assignRole assignDemoState ⟨"t1", "u1", "r1", none⟩ 0).2 ⟨"t1", "u1", "r1", none⟩ 1).2.userRoleStorage.assignments.map (fun kv => kv.1)
      = (PermissionsService.assignRole assignDemoState ⟨"t1", "u1", "r1", none⟩ 0).2.userRoleStorage.assignments.map (fun kv => kv.1)
    ∧ (PermissionsService.getUserRoles
        (PermissionsService.assignRole
          (PermissionsService.assignRole assignDemoState ⟨"t1", "u1", "r1", none⟩ 0).2
          ⟨"t1", "u1", "r1", none⟩ 1).2
        "t1" "u1").1
      = (PermissionsService.getUserRoles
          (PermissionsService.assignRole assignDemoState ⟨"t1", "u1", "r1", none⟩ 0).2
          "t1" "u1").1 :=
  assignRole_idempotent assignDemoState ⟨"t1", "u1", "r1", none⟩ 0 1 (by decide) (by decide)

/-! ## C8: assignRole against a missing role -/

/-- An identifier free of the `':'` delimiter the storage keys use. -/
def noColon (s : String) : Bool := !s.data.contains ':'

theorem colon_append_inj {a1 b1 a2 b2 : List Char}
    (ha1 : ':' ∉ a1) (ha2 : ':' ∉ a2)
    (h : a1 ++ ':' :: b1 = a2 ++ ':' :: b2) : a1 = a2 ∧ b1 = b2 := by
  induction a1 generalizing a2 with
  | nil =>
    cases a2 with
    | nil =>
      simp only [List.nil_append] at h
      exact ⟨rfl, (List.cons.injEq _ _ _ _ ▸ h).2⟩
    | cons c2 rest2 =>
      simp only [List.nil_append, List.cons_append] at h
      have hc2 : c2 = ':' := ((List.cons.injEq _ _ _ _ ▸ h).1).symm
      exact absurd (hc2 ▸ List.mem_cons_self c2 rest2) ha2
  | cons c1 rest1 ih =>
    cases a2 with
    | nil =>
      simp only [List.nil_append, List.cons_append] at h
      have hc1 : c1 = ':' := (List.cons.injEq _ _ _ _ ▸ h).1
      exact absurd (hc1 ▸ List.mem_cons_self c1 rest1) ha1
    | cons c2 rest2 =>
      simp only [List.cons_append] at h
      have h1 := (List.cons.injEq _ _ _ _ ▸ h).1
      have h2 := (List.cons.injEq _ _ _ _ ▸ h).2
      have ih2 := ih (fun hm => ha1 (List.mem_cons_of_mem c1 hm))
        (fun hm => ha2 (List.mem_cons_of_mem c2 hm)) h2
      exact ⟨by rw [h1, ih2.1], ih2.2⟩

theorem noColon_not_mem {s : String} (h : noColon s = true) : ':' ∉ s.data := by
  intro hm
  unfold noColon at h
  rw [Bool.not_eq_true'] at h
  rw [List.contains_eq_any_beq] at h
  simp [List.any_eq_true] at h
  exact h ':' hm rfl

/-- With colon-free tenant ids, the composite key determines both
components. -/
theorem roleKey_inj {t1 r1 t2 r2 : String}
    (ht1 : noColon t1 = true) (ht2 : noColon t2 = true)
    (h : roleKey t1 r1 = roleKey t2 r2) : t1 = t2 ∧ r1 = r2 := by
  have hd : ((t1 ++ ":") ++ r1).data = ((t2 ++ ":") ++ r2).data :=
    congrArg String.data h
  rw [String.data_append, String.data_append, String.data_append,
    String.data_append] at hd
  have hd' : t1.data ++ ':' :: r1.data = t2.data ++ ':' :: r2.data := by
    simpa [List.append_assoc] using hd
  have hinj := colon_append_inj (noColon_not_mem ht1) (noColon_not_mem ht2) hd'
  constructor
  · cases t1; cases t2; simp_all
  · cases r1; cases r2; simp_all

/-- The pre-state for the C8 counterexample: tenant `a` owns role `b:c` and
nothing else exists. -/
def c8CollisionState : SysState :=
  ⟨⟨[(roleKey "a" "b:c", ⟨"b:c", "a", "Admin", none, ["pos:create-sale"], none, 0, 0⟩)]⟩,
    ⟨[]⟩, EnfState.empty⟩

/-- C8 as stated is false on the code: no role `("a:b", "c")` exists in the
store, all identifiers are valid, yet `assignRole` for tenant `a:b` and role
id `c` succeeds (its composite-key lookup hits tenant `a`'s role `b:c`) and
mutates the assignment store. -/
theorem assignRole_missing_role_counterexample :
    (∀ kv ∈ c8CollisionState.roleStorage.roles,
      ¬(kv.2.tenantId = "a:b" ∧ kv.2.roleId = "c"))
    ∧ AssignRoleInputSchema.check ⟨"a:b", "u", "c", none⟩ = true
    ∧ (PermissionsService.assignRole c8CollisionState ⟨"a:b", "u", "c", none⟩ 0).1.isOk
        = true
    ∧ (PermissionsService.assignRole c8CollisionState ⟨"a:b", "u", "c", none⟩
        0).2.userRoleStorage ≠ c8CollisionState.userRoleStorage := by decide

/-- C8 (amended): provided tenant identifiers contain no `':'` (so the
composite keys are injective) and the store's keys are consistent with its
records, `assignRole` against a role absent from that tenant throws
`Role not found` and leaves the whole state unchanged. -/
theorem assignRole_missing_role_rejected_when_ids_colon_free
    (s : SysState) (input : AssignRoleInput) (now : Nat)
    (hchk : AssignRoleInputSchema.check input = true)
    (hkeys : ∀ kv ∈ s.roleStorage.roles, kv.1 = roleKey kv.2.tenantId kv.2.roleId)
    (hfree : ∀ kv ∈ s.roleStorage.roles, noColon kv.2.tenantId = true)
    (htf : noColon input.tenantId = true)
    (hmiss : ∀ kv ∈ s.roleStorage.roles,
      ¬(kv.2.tenantId = input.tenantId ∧ kv.2.roleId = input.roleId)) :
    PermissionsService.assignRole s input now
      = (.error ("Role not found: " ++ input.roleId), s) := by
  have hnone : s.roleStorage.getRole input.tenantId input.roleId = none := by
    cases hg : s.roleStorage.getRole input.tenantId input.roleId with
    | none => rfl
    | some role =>
      exfalso
      have hmem : (roleKey input.tenantId input.roleId, role) ∈ s.roleStorage.roles :=
        mapGet_mem hg
      have hkey := hkeys _ hmem
      have hinj := roleKey_inj htf (hfree _ hmem) hkey
      exact hmiss _ hmem ⟨hinj.1.symm, hinj.2.symm⟩
  simp [PermissionsService.assignRole, hchk, hnone]

/-- Witness for the amended C8: assigning a role that was never created, on
an empty service, fails with `Role not found` and changes nothing. -/
theorem assignRole_missing_role_rejected_when_ids_colon_free_witness :
    PermissionsService.assignRole SysState.init ⟨"t1", "u1", "r1", none⟩ 7
      = (.error ("Role not found: " ++ "r1"), SysState.init) :=
  assignRole_missing_role_rejected_when_ids_colon_free SysState.init
    ⟨"t1", "u1", "r1", none⟩ 7 (by decide) (by decide) (by decide) (by decide) (by decide)

/-! ## C9: the store-level update merges over the existing role -/

/-- C9: for every existing role and every partial update, the store-level
`updateRole` returns a merged role that keeps `roleId`, `tenantId` and
`createdAt` from the existing record, refreshes `updatedAt`, takes each
supplied field from the update and each absent field from the existing role,
and stores exactly that merged role under the same key. -/
theorem storage_updateRole_merges_and_preserves_immutables
    (st : InMemoryRoleStorage) (tenantId roleId : String) (updates : RoleUpdate)
    (now : Nat) (existing : Role)
    (hex : st.getRole tenantId roleId = some existing) :
    ∃ merged rs,
      st.updateRole tenantId roleId updates now = .ok (merged, rs)
      ∧ merged.roleId = existing.roleId
      ∧ merged.tenantId = existing.tenantId
      ∧ merged.createdAt = existing.createdAt
      ∧ merged.updatedAt = now
      ∧ (updates.name = none → merged.name = existing.name)
      ∧ (∀ v, updates.name = some v → merged.name = v)
      ∧ (updates.description = none → merged.description = existing.description)
      ∧ (∀ v, updates.description = some v → merged.description = some v)
      ∧ (updates.capabilities = none → merged.capabilities = existing.capabilities)
      ∧ (∀ v, updates.capabilities = some v → merged.capabilities = v)
      ∧ (updates.metadata = none → merged.metadata = existing.metadata)
      ∧ (∀ v, updates.metadata = some v → merged.metadata = some v)
      ∧ rs = ⟨mapSet (roleKey tenantId roleId) merged st.roles⟩
      ∧ rs.getRole tenantId roleId = some merged := by
  have hex' : mapGet (roleKey tenantId roleId) st.roles = some existing := hex
  refine ⟨⟨existing.roleId, existing.tenantId,
      (mergeOpt updates.name (some existing.name)).getD existing.name,
      mergeOpt updates.description existing.description,
      (mergeOpt updates.capabilities (some existing.capabilities)).getD existing.capabilities,
      mergeOpt updates.metadata existing.metadata,
      existing.createdAt, now⟩,
    _, ?_, rfl, rfl, rfl, rfl, ?_, ?_, ?_, ?_, ?_, ?_, ?_, ?_, rfl, ?_⟩
  · unfold InMemoryRoleStorage.updateRole
    rw [hex']
  · intro hv
    simp [mergeOpt, hv]
  · intro v hv
    simp [mergeOpt, hv]
  · intro hv
    simp [mergeOpt, hv]
  · intro v hv
    simp [mergeOpt, hv]
  · intro hv
    simp [mergeOpt, hv]
  · intro v hv
    simp [mergeOpt, hv]
  · intro hv
    simp [mergeOpt, hv]
  · intro v hv
    simp [mergeOpt, hv]
  · show InMemoryRoleStorage.getRole _ _ _ = _
    unfold InMemoryRoleStorage.getRole
    exact mapGet_mapSet_self _ _ _

/-- The stored role used to witness C9. -/
def c9Existing : Role := ⟨"r1", "t1", "Admin", none, ["pos:create-sale"], none, 3, 4⟩

/-- The partial update used to witness C9: `name` and `capabilities` are
supplied, `description` and `metadata` are not. -/
def c9Update : RoleUpdate :=
  ⟨some "Super Admin", none, some ["pos:create-sale", "pos:refund-sale"], none, some 9⟩

/-- Witness for C9 at a concrete store and update. -/
theorem storage_updateRole_merges_and_preserves_immutables_witness :
    ∃ merged rs,
      InMemoryRoleStorage.updateRole ⟨[(roleKey "t1" "r1", c9Existing)]⟩ "t1" "r1"
          c9Update 9
        = .ok (merged, rs)
      ∧ merged.roleId = c9Existing.roleId
      ∧ merged.tenantId = c9Existing.tenantId
      ∧ merged.createdAt = c9Existing.createdAt
      ∧ merged.updatedAt = 9
      ∧ (c9Update.name = none → merged.name = c9Existing.name)
      ∧ (∀ v, c9Update.name = some v → merged.name = v)
      ∧ (c9Update.description = none → merged.description = c9Existing.description)
      ∧ (∀ v, c9Update.description = some v → merged.description = some v)
      ∧ (c9Update.capabilities = none → merged.capabilities = c9Existing.capabilities)
      ∧ (∀ v, c9Update.capabilities = some v → merged.capabilities = v)
      ∧ (c9Update.metadata = none → merged.metadata = c9Existing.metadata)
      ∧ (∀ v, c9Update.metadata = some v → merged.metadata = some v)
      ∧ rs = ⟨mapSet (roleKey "t1" "r1") merged [(roleKey "t1" "r1", c9Existing)]⟩
      ∧ rs.getRole "t1" "r1" = some merged :=
  storage_updateRole_merges_and_preserves_immutables
    ⟨[(roleKey "t1" "r1", c9Existing)]⟩ "t1" "r1" c9Update 9 c9Existing (by decide)

/-! ## C5: capability replacement on update, and the missing-role branch -/

/-- The pre-state for the C5 counterexample: tenant `a` owns role `b:c` and
nothing else exists. -/
def c5CollisionState : SysState :=
  ⟨⟨[(roleKey "a" "b:c", ⟨"b:c", "a", "Admin", none, ["pos:create-sale"], none, 0, 0⟩)]⟩,
    ⟨[]⟩, EnfState.empty⟩

/-- The capability-replacing partial update used in the C5 counterexample. -/
def c5CollisionUpdate : UpdateRoleInput := ⟨none, none, some ["pos:refund-sale"], none⟩

/-- C5's missing-role clause is false on the code: no role `("a:b", "c")`
exists in the store, all identifiers pass validation, yet
`updateRole("a:b", "c", {capabilities: [...]})` succeeds instead of throwing
`RoleNotFound` — its composite-key lookup hits tenant `a`'s role `b:c` — and
it mutates the state. -/
theorem updateRole_missing_role_counterexample :
    (∀ kv ∈ c5CollisionState.roleStorage.roles,
      ¬(kv.2.tenantId = "a:b" ∧ kv.2.roleId = "c"))
    ∧ idOk "a:b" = true ∧ idOk "c" = true
    ∧ UpdateRoleInputSchema.check c5CollisionUpdate = true
    ∧ (PermissionsService.updateRole c5CollisionState "a:b" "c"
        c5CollisionUpdate 1).1.isOk = true
    ∧ (PermissionsService.updateRole c5CollisionState "a:b" "c"
        c5CollisionUpdate 1).2 ≠ c5CollisionState := by decide

/-- C5 (amended): for an existing role, after `updateRole` succeeds with
`capabilities` present and equal to `caps` the grant set of
`(tenantId, roleId)` in the index is exactly `caps` (old grants not in `caps`
are removed, every member of `caps` is granted); and — provided tenant
identifiers contain no `':'`, so the storage's composite keys are injective —
`updateRole` against a role absent from that tenant throws `Role not found`
and leaves the state unchanged. -/
theorem updateRole_replaces_grant_set_and_rejects_missing_colon_free :
    (∀ (s : SysState) (tenantId roleId : String) (input : UpdateRoleInput)
        (now : Nat) (caps : List String),
      idOk tenantId = true → idOk roleId = true →
      UpdateRoleInputSchema.check input = true →
      input.capabilities = some caps →
      (s.roleStorage.getRole tenantId roleId).isSome = true →
      ∀ capability : String,
        (((roleId, tenantId, capability) : Triple)
            ∈ (PermissionsService.updateRole s tenantId roleId input now).2.enf.policies
          ↔ capability ∈ caps))
    ∧ (∀ (s : SysState) (tenantId roleId : String) (input : UpdateRoleInput) (now : Nat),
      idOk tenantId = true → idOk roleId = true →
      UpdateRoleInputSchema.check input = true →
      (∀ kv ∈ s.roleStorage.roles, kv.1 = roleKey kv.2.tenantId kv.2.roleId) →
      (∀ kv ∈ s.roleStorage.roles, noColon kv.2.tenantId = true) →
      noColon tenantId = true →
      (∀ kv ∈ s.roleStorage.roles,
        ¬(kv.2.tenantId = tenantId ∧ kv.2.roleId = roleId)) →
      PermissionsService.updateRole s tenantId roleId input now
        = (.error ("Role not found: " ++ roleId), s)) := by
  constructor
  · intro s tenantId roleId input now caps ht hr hchk hcaps hsome capability
    obtain ⟨existing, hex⟩ := Option.isSome_iff_exists.mp hsome
    have hex' : mapGet (roleKey tenantId roleId) s.roleStorage.roles = some existing := hex
    simp only [PermissionsService.updateRole, InMemoryRoleStorage.updateRole,
      InMemoryRoleStorage.getRole, ht, hr, hchk, hcaps, hex', Bool.and_self,
      Bool.not_true, Bool.false_eq_true, if_false]
    rw [foldl_addRolePolicy_policies_mem, clearRolePolicies_policies_mem]
    simp only [and_true, not_true_eq_false, and_false, false_or]
    constructor
    · rintro ⟨c, hc, hcap⟩
      have hcc : capability = c := congrArg (fun q : Triple => q.2.2) hcap
      rw [hcc]
      exact hc
    · intro hcap
      exact ⟨capability, hcap, rfl⟩
  · intro s tenantId roleId input now ht hr hchk hkeys hfree htf hmiss
    have hnone : s.roleStorage.getRole tenantId roleId = none := by
      cases hg : s.roleStorage.getRole tenantId roleId with
      | none => rfl
      | some role =>
        exfalso
        have hmem : (roleKey tenantId roleId, role) ∈ s.roleStorage.roles :=
          mapGet_mem hg
        have hkey := hkeys _ hmem
        have hinj := roleKey_inj htf (hfree _ hmem) hkey
        exact hmiss _ hmem ⟨hinj.1.symm, hinj.2.symm⟩
    simp only [PermissionsService.updateRole, ht, hr, hchk, Bool.and_self,
      Bool.not_true, Bool.false_eq_true, if_false, hnone]

/-- The pre-state used to witness the amended C5: tenant `t1` owns role `r1`
granting only `pos:create-sale`. -/
def updateDemoState : SysState :=
  ⟨⟨[(roleKey "t1" "r1", ⟨"r1", "t1", "Admin", none, ["pos:create-sale"], none, 0, 0⟩)]⟩,
    ⟨[]⟩, ⟨[("r1", "t1", "pos:create-sale")], []⟩⟩

/-- The update used to witness the amended C5: replace the capability set. -/
def updateDemoInput : UpdateRoleInput :=
  ⟨none, none, some ["pos:create-sale", "pos:void-sale"], none⟩

/-- Witness for the amended C5 at concrete inputs: both the success and the
missing-role branches. -/
theorem updateRole_replaces_grant_set_and_rejects_missing_colon_free_witness :
    (((("r1", "t1", "pos:void-sale") : Triple)
        ∈ (PermissionsService.updateRole updateDemoState "t1" "r1"
            updateDemoInput 5).2.enf.policies
      ↔ "pos:void-sale" ∈ ["pos:create-sale", "pos:void-sale"]))
    ∧ PermissionsService.updateRole SysState.init "t1" "r1" updateDemoInput 5
        = (.error ("Role not found: " ++ "r1"), SysState.init) :=
  ⟨updateRole_replaces_grant_set_and_rejects_missing_colon_free.1 updateDemoState
      "t1" "r1" updateDemoInput 5 ["pos:create-sale", "pos:void-sale"]
      (by decide) (by decide) (by decide) rfl (by decide) "pos:void-sale",
    updateRole_replaces_grant_set_and_rejects_missing_colon_free.2 SysState.init
      "t1" "r1" updateDemoInput 5 (by decide) (by decide) (by decide)
      (by decide) (by decide) (by decide) (by decide)⟩
